import Mathlib

set_option autoImplicit false

/-!
Verification development for the brownian-motion forecasting endpoints of the
candle_api service (src/candle_api/main.py) and for the stochastic forecasting
engine they delegate to (the brownian_motion_model module, whose code is not in
the repository snapshot; the parts a claim needs are modelled from the spec and
marked as such in their doc comments).

The HTTP handlers are embedded as pure functions from an explicit registry
state and a parsed request to a result record holding the post-call registry
state, the JSON-level response, and the trace of engine invocations the handler
performed. The engine itself enters the handler embedding as a function
parameter, since its code is missing.
-/

namespace Backtest

/-- Per-model configuration object held by each predictor in the
brownian_predictors registry (fields read and written by main.py lines
247-249 and 304-306). Field values are modelled as unconstrained integers
because the handler code writes request values into them without any check. -/
structure BrownianMotionConfig where
  window_size : Int
  prediction_steps : Int
  num_simulations : Int
deriving DecidableEq, Repr

/-- A validated candle as far as the brownian endpoints use it: only the
closing price is read (main.py lines 232 and 287). Prices are modelled as
rationals. -/
structure Candle where
  close : ℚ
deriving DecidableEq, Repr

/-- The optional per-call configuration override carried in the request body
under the key config: each of the three fields may be present or absent
(dict.get with the current value as the default, main.py lines 247-249). -/
structure ConfigOverride where
  window_size : Option Int
  prediction_steps : Option Int
  num_simulations : Option Int
deriving DecidableEq, Repr

/-- The merge performed at main.py lines 247-249 / 304-306: each present
override field replaces the current config value, each absent one keeps it. -/
def applyOverride (cfg : BrownianMotionConfig) (o : ConfigOverride) : BrownianMotionConfig :=
  { window_size := o.window_size.getD cfg.window_size
    prediction_steps := o.prediction_steps.getD cfg.prediction_steps
    num_simulations := o.num_simulations.getD cfg.num_simulations }

/-- The process-lifetime brownian_predictors registry (main.py lines 32-36):
one predictor per supported model kind; each predictor's observable state for
these endpoints is its config object. -/
structure Registry where
  heston : BrownianMotionConfig
  garch : BrownianMotionConfig
  gbm : BrownianMotionConfig
deriving DecidableEq, Repr

/-- Dictionary lookup model_type in brownian_predictors (main.py lines
236 and 293): returns the per-kind predictor's config handle for the three
known kinds, nothing otherwise. -/
def Registry.lookup (reg : Registry) (kind : String) : Option BrownianMotionConfig :=
  if kind = "heston" then some reg.heston
  else if kind = "garch" then some reg.garch
  else if kind = "gbm" then some reg.gbm
  else none

/-- Writing a predictor's config back into the registry: models the in-place
mutation predictor.config.field = ... of the shared per-kind instance. -/
def Registry.set (reg : Registry) (kind : String) (cfg : BrownianMotionConfig) : Registry :=
  if kind = "heston" then { reg with heston := cfg }
  else if kind = "garch" then { reg with garch := cfg }
  else if kind = "gbm" then { reg with gbm := cfg }
  else reg

/-- The forecast payload produced by the engine's predict on success. Its
internal shape (per-step statistics, terminal-return distribution) is carried
opaquely by the handler, which only forwards it to the JSON response. -/
structure ForecastResult where
  mean_path : List ℚ
  expected_return : ℚ
deriving DecidableEq, Repr

/-- Outcome of the engine's predict as the handler observes it (main.py lines
252-255): a dict that either carries an error key or is a complete forecast. -/
inductive PredictOutcome where
  | err (msg : String)
  | ok (forecast : ForecastResult)
deriving DecidableEq, Repr

/-- A discrete trading action. -/
inductive Signal where
  | BUY
  | SELL
  | HOLD
deriving DecidableEq, Repr

/-- One invocation of the missing forecasting engine, recorded so that
theorems can speak about whether (and with which configuration) calibration
and simulation work was started by a handler. -/
inductive EngineCall where
  | predictCall (cfg : BrownianMotionConfig) (prices : List ℚ)
  | signalsCall (cfg : BrownianMotionConfig) (prices : List ℚ) (threshold : ℚ)
deriving DecidableEq, Repr

/-- The window_size an engine invocation was started with. -/
def EngineCall.windowSize : EngineCall → Int
  | .predictCall cfg _ => cfg.window_size
  | .signalsCall cfg _ _ => cfg.window_size

/-- The JSON-level response of a brownian endpoint: an error body with an HTTP
status, or one of the two success bodies. -/
inductive Response where
  | error (msg : String) (status : Nat)
  | predictOk (forecast : ForecastResult) (model_type : String)
  | signalsOk (signals : List Signal) (model_type : String) (threshold : ℚ)
deriving DecidableEq, Repr

/-- A parsed /brownian/predict request body: candles is none when the body or
its candles key is absent, model_type and config are the optional fields the
handler reads with dict.get. -/
structure PredictBrownianRequest where
  candles : Option (List Candle)
  model_type : Option String
  config : Option ConfigOverride
deriving DecidableEq, Repr

/-- A parsed /brownian/signals request body. -/
structure SignalsBrownianRequest where
  candles : Option (List Candle)
  model_type : Option String
  threshold : Option ℚ
  config : Option ConfigOverride
deriving DecidableEq, Repr

/-- What a handler call leaves behind: the registry state after the call, the
response returned to the client, and the engine invocations performed. -/
structure HandlerRun where
  registry : Registry
  response : Response
  calls : List EngineCall
deriving DecidableEq, Repr

/-- Embedding of the /brownian/predict handler predict_brownian (main.py lines
207-265), parameterised by the engine's predict function pf (the
brownian_motion_model module is not in the snapshot). Steps, in source order:
missing body or candles key gives status 400 No candles provided; an empty
candle list gives the same; otherwise closing prices are extracted, the model
kind defaults to heston, an unknown kind gives status 400 Unsupported model
type before any engine work; a present config override is then written into
the shared predictor's config object field by field; predict runs on the full
price list; an error outcome becomes a 400 error response, a forecast becomes
the success body. -/
def predict_brownian (pf : BrownianMotionConfig → List ℚ → PredictOutcome)
    (reg : Registry) (req : PredictBrownianRequest) : HandlerRun :=
  match req.candles with
  | none => ⟨reg, .error "No candles provided" 400, []⟩
  | some candles =>
    if candles.length = 0 then ⟨reg, .error "No candles provided" 400, []⟩
    else
      let prices := candles.map Candle.close
      let model_type := req.model_type.getD "heston"
      match reg.lookup model_type with
      | none => ⟨reg, .error ("Unsupported model type: " ++ model_type) 400, []⟩
      | some cfg =>
        let cfg1 := match req.config with
          | none => cfg
          | some o => applyOverride cfg o
        let reg1 := match req.config with
          | none => reg
          | some _ => reg.set model_type cfg1
        match pf cfg1 prices with
        | .err m => ⟨reg1, .error m 400, [.predictCall cfg1 prices]⟩
        | .ok f => ⟨reg1, .predictOk f model_type, [.predictCall cfg1 prices]⟩

/-- Embedding of the /brownian/signals handler generate_brownian_signals
(main.py lines 267-329), parameterised by the engine's generate_signals
function sf. Same request gating as predict_brownian (missing or empty
candles, unknown model kind), threshold defaults to 0.02, a present config
override is written into the shared predictor's config, then the signal list
returned by the engine is wrapped in the success body. -/
def generate_brownian_signals (sf : BrownianMotionConfig → List ℚ → ℚ → List Signal)
    (reg : Registry) (req : SignalsBrownianRequest) : HandlerRun :=
  match req.candles with
  | none => ⟨reg, .error "No candles provided" 400, []⟩
  | some candles =>
    if candles.length = 0 then ⟨reg, .error "No candles provided" 400, []⟩
    else
      let prices := candles.map Candle.close
      let model_type := req.model_type.getD "heston"
      let threshold := req.threshold.getD (1 / 50 : ℚ)
      match reg.lookup model_type with
      | none => ⟨reg, .error ("Unsupported model type: " ++ model_type) 400, []⟩
      | some cfg =>
        let cfg1 := match req.config with
          | none => cfg
          | some o => applyOverride cfg o
        let reg1 := match req.config with
          | none => reg
          | some _ => reg.set model_type cfg1
        ⟨reg1, .signalsOk (sf cfg1 prices threshold) model_type threshold,
          [.signalsCall cfg1 prices threshold]⟩

/-- One entry of the /brownian/models metadata body. -/
structure ModelInfo where
  name : String
  description : String
  parameters : List String
deriving DecidableEq, Repr

/-- Embedding of the /brownian/models handler get_brownian_models (main.py
lines 331-352): the static metadata body, one entry per model kind in source
order. -/
def get_brownian_models : List (String × ModelInfo) :=
  [("heston",
    { name := "Heston Model"
      description := "Стохастическая волатильность с корреляцией"
      parameters := ["mu", "kappa", "theta", "sigma", "rho", "v0"] }),
   ("garch",
    { name := "GARCH(1,1) Model"
      description := "Условная волатильность с ARCH/GARCH эффектами"
      parameters := ["omega", "alpha", "beta", "mu"] }),
   ("gbm",
    { name := "Geometric Brownian Motion"
      description := "Классическое геометрическое броуновское движение"
      parameters := ["mu", "sigma"] })]

/-! Spec-modelled engine parts. The brownian_motion_model module (calibration,
path simulation, aggregation, walk-forward signal generation, and the error
type) is referenced by main.py but its source is not in the repository
snapshot; the definitions below are modelled from the spec's words, to the
extent the claims need them. -/

/-- Modelled from the spec: the structured error kinds of the missing
brownian_motion_model module (spec section 7). -/
inductive BMError where
  | insufficientData
  | invalidParameters
  | unsupportedModel
  | simulationTimeout
deriving DecidableEq, Repr

/-- Modelled from the spec: the data-sufficiency gate of the missing engine's
calibrate, whose contract is calibrate(prices, window_size) fails with
InsufficientDataError if len(prices) < window_size + 2 (spec section 4.1).
The model-specific parameter-estimation heuristics on the success path are
out of the claims' scope and the calibrated parameters are abstracted to the
unit value here. -/
def calibrate (prices : List ℚ) (window_size : ℕ) : Except BMError Unit :=
  if prices.length < window_size + 2 then .error .insufficientData else .ok ()

/-- Modelled from the spec: the missing engine's single-shot predict, which
performs one calibration over the supplied series and, only on calibration
success, one simulation plus aggregation returning a complete ForecastResult
(spec section 4.4). The numeric simulate/aggregate chain on the success path
is abstracted as the function argument fc from the calibrated window to the
forecast; calibration failure propagates as the structured error and never
yields a forecast. -/
def predictEngine (fc : List ℚ → ForecastResult) (window_size : ℕ)
    (prices : List ℚ) : Except BMError ForecastResult :=
  match calibrate prices window_size with
  | .error e => .error e
  | .ok _ => .ok (fc prices)

/-- Modelled from the spec: the threshold decision of the signal generator
(spec section 4.4): expected terminal return r against threshold t gives BUY
when r is above t, SELL when r is below -t, HOLD otherwise. -/
def decideSignal (r t : ℚ) : Signal :=
  if t < r then .BUY else if r < -t then .SELL else .HOLD

/-- Modelled from the spec: the missing engine's walk-forward generate_signals
(spec section 4.4): for each index i from window_size to len(prices)
exclusive, recalibrate on the trailing window prices drop (i - window_size)
take window_size, simulate ahead, obtain the expected terminal return, and
decide by threshold. The per-window calibrate/simulate/aggregate chain is
abstracted as the expected-return oracle expRet on the window. -/
def generate_signals (expRet : List ℚ → ℚ) (prices : List ℚ)
    (window_size : ℕ) (threshold : ℚ) : List Signal :=
  (List.range (prices.length - window_size)).map fun k =>
    decideSignal (expRet ((prices.drop k).take window_size)) threshold

/-- Modelled from the spec: one full-truncation Euler step of the Heston
variance process (spec section 4.2): the variance update uses the clamped
current variance inside the square root and the result is clamped to be
non-negative. -/
noncomputable def hestonVarStep (kappa theta sigma dt v z : ℝ) : ℝ :=
  max (v + kappa * (theta - v) * dt + sigma * Real.sqrt (max v 0 * dt) * z) 0

/-- Modelled from the spec: the sequence of simulated variance values of one
Heston path, one value per step, each produced from the previous one by the
full-truncation step applied to that step's variance-noise draw. -/
noncomputable def hestonVarPath (kappa theta sigma dt : ℝ) : ℝ → List ℝ → List ℝ
  | _, [] => []
  | v, z :: zs =>
    hestonVarStep kappa theta sigma dt v z ::
      hestonVarPath kappa theta sigma dt (hestonVarStep kappa theta sigma dt v z) zs

/-- Every element of a list of reals is non-negative. -/
def allNonneg : List ℝ → Prop
  | [] => True
  | v :: vs => 0 ≤ v ∧ allNonneg vs

/-! Concrete fixtures used to instantiate theorems with hypotheses. -/

/-- A registry whose three predictors hold a default config of window 30,
5 prediction steps and 1000 simulations. -/
def sampleRegistry : Registry := ⟨⟨30, 5, 1000⟩, ⟨30, 5, 1000⟩, ⟨30, 5, 1000⟩⟩

/-- A three-candle request payload. -/
def sampleCandles : List Candle := [⟨100⟩, ⟨101⟩, ⟨102⟩]

/-- An engine predict that reports an error on every input. -/
def samplePf : BrownianMotionConfig → List ℚ → PredictOutcome :=
  fun _ _ => .err "Insufficient data"

/-- A concrete forecast payload. -/
def sampleForecast : ForecastResult := ⟨[100], 0⟩

/-- An engine predict that succeeds with the same forecast on every input. -/
def samplePfOk : BrownianMotionConfig → List ℚ → PredictOutcome :=
  fun _ _ => .ok sampleForecast

/-- An engine generate_signals that returns no signals on every input. -/
def sampleSf : BrownianMotionConfig → List ℚ → ℚ → List Signal :=
  fun _ _ _ => []

/-! Theorems settling the claims. -/

/-- C6: for every parameter set, every starting variance, and every sequence of
variance-noise draws, every simulated variance value produced by the Heston
full-truncation scheme is non-negative: the clamp to max with 0 at the end of
each step makes non-negativity an invariant preserved by every step of every
path. -/
theorem c6_heston_variance_nonneg (kappa theta sigma dt v0 : ℝ) (zs : List ℝ) :
    allNonneg (hestonVarPath kappa theta sigma dt v0 zs) := by
  induction zs generalizing v0 with
  | nil => trivial
  | cons z zs ih => exact ⟨le_max_right _ _, ih _⟩

/-- C8: the /brownian/models metadata body enumerates exactly the three model
kinds heston, garch, gbm in that order, and reports for each its human-readable
name and exactly the claimed parameter name list. -/
theorem c8_models_metadata :
    get_brownian_models.map Prod.fst = ["heston", "garch", "gbm"] ∧
    get_brownian_models.map (fun p => (p.2.name, p.2.parameters)) =
      [("Heston Model", ["mu", "kappa", "theta", "sigma", "rho", "v0"]),
       ("GARCH(1,1) Model", ["omega", "alpha", "beta", "mu"]),
       ("Geometric Brownian Motion", ["mu", "sigma"])] :=
  ⟨rfl, rfl⟩

/-- C10: a /brownian/predict or /brownian/signals request whose candle list is
empty (or absent) is answered with the No candles provided error, the registry
is untouched, and no engine call — no model lookup, calibration or simulation —
is performed, whatever model type, threshold or config override the request
also carries. -/
theorem c10_empty_candles_rejected
    (pf : BrownianMotionConfig → List ℚ → PredictOutcome)
    (sf : BrownianMotionConfig → List ℚ → ℚ → List Signal)
    (reg : Registry) (mt : Option String) (o : Option ConfigOverride)
    (t : Option ℚ) :
    predict_brownian pf reg ⟨some [], mt, o⟩
        = ⟨reg, .error "No candles provided" 400, []⟩ ∧
    predict_brownian pf reg ⟨none, mt, o⟩
        = ⟨reg, .error "No candles provided" 400, []⟩ ∧
    generate_brownian_signals sf reg ⟨some [], mt, t, o⟩
        = ⟨reg, .error "No candles provided" 400, []⟩ ∧
    generate_brownian_signals sf reg ⟨none, mt, t, o⟩
        = ⟨reg, .error "No candles provided" 400, []⟩ :=
  ⟨rfl, rfl, rfl, rfl⟩

/-- C2: for a price series longer than the window, walk-forward
generate_signals returns exactly len(prices) − window_size signals, each one of
BUY, SELL, HOLD — one decision per index from window_size to the end, none for
earlier indices. -/
theorem c2_signal_count (expRet : List ℚ → ℚ) (prices : List ℚ)
    (window_size : ℕ) (threshold : ℚ) (h : window_size < prices.length) :
    (generate_signals expRet prices window_size threshold).length
        = prices.length - window_size ∧
    ∀ s ∈ generate_signals expRet prices window_size threshold,
      s = Signal.BUY ∨ s = Signal.SELL ∨ s = Signal.HOLD := by
  refine ⟨by simp [generate_signals], ?_⟩
  intro s _
  cases s <;> simp

/-- Witness for C2 at a concrete five-price series with window 2. -/
theorem c2_signal_count_witness :
    (2 : ℕ) < ([(1 : ℚ), 2, 3, 4, 5]).length ∧
    ((generate_signals (fun _ => 0) [(1 : ℚ), 2, 3, 4, 5] 2 (1 / 50)).length
        = ([(1 : ℚ), 2, 3, 4, 5]).length - 2 ∧
     ∀ s ∈ generate_signals (fun _ => 0) [(1 : ℚ), 2, 3, 4, 5] 2 (1 / 50),
       s = Signal.BUY ∨ s = Signal.SELL ∨ s = Signal.HOLD) :=
  ⟨by decide, c2_signal_count (fun _ => 0) [(1 : ℚ), 2, 3, 4, 5] 2 (1 / 50) (by decide)⟩

/-- C5: the engine's calibrate fails with InsufficientDataError whenever the
series is shorter than window_size + 2, and consequently predict on a series
shorter than window_size returns InsufficientDataError and never a forecast. -/
theorem c5_insufficient_data (prices : List ℚ) (window_size : ℕ)
    (fc : List ℚ → ForecastResult) :
    (prices.length < window_size + 2 →
      calibrate prices window_size = .error .insufficientData) ∧
    (prices.length < window_size →
      predictEngine fc window_size prices = .error .insufficientData) := by
  constructor
  · intro h
    simp [calibrate, h]
  · intro h
    have h2 : prices.length < window_size + 2 := by omega
    simp [predictEngine, calibrate, h2]

/-- Witness for C5 at a two-price series with window 5. -/
theorem c5_insufficient_data_witness :
    calibrate [(1 : ℚ), 2] 5 = .error .insufficientData ∧
    predictEngine (fun _ => sampleForecast) 5 [(1 : ℚ), 2]
        = .error .insufficientData :=
  ⟨(c5_insufficient_data [(1 : ℚ), 2] 5 (fun _ => sampleForecast)).1 (by decide),
   (c5_insufficient_data [(1 : ℚ), 2] 5 (fun _ => sampleForecast)).2 (by decide)⟩

/-- C1 counterexample: the claim that per-call overrides never reach the
shared registry is false at a concrete input: a /brownian/predict call with a
window_size override of 50 against the default registry (window 30) leaves the
shared heston predictor's config at 50, and a successive call with no override
then runs the engine with window 50 — it observes the previous call's
override. -/
theorem c1_registry_mutation_counterexample :
    (predict_brownian samplePf sampleRegistry
        ⟨some sampleCandles, none, some ⟨some 50, none, none⟩⟩).registry.heston.window_size
      = 50 ∧
    sampleRegistry.heston.window_size = 30 ∧
    (predict_brownian samplePf
        (predict_brownian samplePf sampleRegistry
          ⟨some sampleCandles, none, some ⟨some 50, none, none⟩⟩).registry
        ⟨some sampleCandles, none, none⟩).calls.map EngineCall.windowSize = [50] ∧
    (generate_brownian_signals sampleSf sampleRegistry
        ⟨some sampleCandles, none, none, some ⟨some 50, none, none⟩⟩).registry.heston.window_size
      = 50 := by
  decide

/-- C1 (amended): a per-call config override on either /brownian endpoint is
written field by field into the shared registry's selected predictor config,
mutating the process-lifetime object: for every known model kind, the
post-call registry holds the merged config in that kind's slot, so a later
call observes the previous call's override values. -/
theorem c1_amended_override_persists
    (pf : BrownianMotionConfig → List ℚ → PredictOutcome)
    (sf : BrownianMotionConfig → List ℚ → ℚ → List Signal)
    (reg : Registry) (kind : String) (cfg : BrownianMotionConfig)
    (cs : List Candle) (o : ConfigOverride) (t : Option ℚ)
    (h : cs ≠ []) (hk : reg.lookup kind = some cfg) :
    (predict_brownian pf reg ⟨some cs, some kind, some o⟩).registry
        = reg.set kind (applyOverride cfg o) ∧
    (generate_brownian_signals sf reg ⟨some cs, some kind, t, some o⟩).registry
        = reg.set kind (applyOverride cfg o) := by
  have hlen : ¬ cs.length = 0 := by simpa using h
  constructor
  · cases hpf : pf (applyOverride cfg o) (cs.map Candle.close) <;>
      simp [predict_brownian, hlen, hk, hpf]
  · simp [generate_brownian_signals, hlen, hk]

/-- Witness for the amended C1 at the sample fixtures, selecting the garch
predictor on both endpoints. -/
theorem c1_amended_override_persists_witness :
    sampleCandles ≠ [] ∧
    sampleRegistry.lookup "garch" = some sampleRegistry.garch ∧
    ((predict_brownian samplePf sampleRegistry
        ⟨some sampleCandles, some "garch", some ⟨some 50, none, none⟩⟩).registry
        = sampleRegistry.set "garch"
            (applyOverride sampleRegistry.garch ⟨some 50, none, none⟩) ∧
     (generate_brownian_signals sampleSf sampleRegistry
        ⟨some sampleCandles, some "garch", none, some ⟨some 50, none, none⟩⟩).registry
        = sampleRegistry.set "garch"
            (applyOverride sampleRegistry.garch ⟨some 50, none, none⟩)) :=
  ⟨by decide, by decide,
   c1_amended_override_persists samplePf sampleSf sampleRegistry "garch"
     sampleRegistry.garch sampleCandles ⟨some 50, none, none⟩ none
     (by decide) (by decide)⟩

/-- C3: for every model-kind string other than heston, garch and gbm, the
registry lookup fails and both /brownian entry points answer with the
unsupported-model error, leaving the registry untouched and performing no
engine work at all; each of the three known kinds resolves to its predictor
handle. -/
theorem c3_unknown_model_rejected
    (pf : BrownianMotionConfig → List ℚ → PredictOutcome)
    (sf : BrownianMotionConfig → List ℚ → ℚ → List Signal)
    (reg : Registry) (kind : String) (cs : List Candle)
    (hcs : cs ≠ []) (h1 : kind ≠ "heston") (h2 : kind ≠ "garch")
    (h3 : kind ≠ "gbm") :
    reg.lookup kind = none ∧
    predict_brownian pf reg ⟨some cs, some kind, none⟩
        = ⟨reg, .error ("Unsupported model type: " ++ kind) 400, []⟩ ∧
    generate_brownian_signals sf reg ⟨some cs, some kind, none, none⟩
        = ⟨reg, .error ("Unsupported model type: " ++ kind) 400, []⟩ ∧
    reg.lookup "heston" = some reg.heston ∧
    reg.lookup "garch" = some reg.garch ∧
    reg.lookup "gbm" = some reg.gbm := by
  have hnone : reg.lookup kind = none := by simp [Registry.lookup, h1, h2, h3]
  have hlen : ¬ cs.length = 0 := by simpa using hcs
  refine ⟨hnone, ?_, ?_, by simp [Registry.lookup], by simp [Registry.lookup],
    by simp [Registry.lookup]⟩
  · simp [predict_brownian, hlen, hnone]
  · simp [generate_brownian_signals, hlen, hnone]

/-- Witness for C3 at the unknown kind merton and the sample fixtures. -/
theorem c3_unknown_model_rejected_witness :
    sampleRegistry.lookup "merton" = none ∧
    predict_brownian samplePf sampleRegistry ⟨some sampleCandles, some "merton", none⟩
        = ⟨sampleRegistry, .error ("Unsupported model type: " ++ "merton") 400, []⟩ ∧
    generate_brownian_signals sampleSf sampleRegistry
        ⟨some sampleCandles, some "merton", none, none⟩
        = ⟨sampleRegistry, .error ("Unsupported model type: " ++ "merton") 400, []⟩ ∧
    sampleRegistry.lookup "heston" = some sampleRegistry.heston ∧
    sampleRegistry.lookup "garch" = some sampleRegistry.garch ∧
    sampleRegistry.lookup "gbm" = some sampleRegistry.gbm :=
  c3_unknown_model_rejected samplePf sampleSf sampleRegistry "merton" sampleCandles
    (by decide) (by decide) (by decide) (by decide)

/-- C4 counterexample: the claim that non-positive overrides are rejected
before any simulation work is false at a concrete input: an override
window_size = -5 is written into the shared config unchecked and the engine is
invoked with window -5. -/
theorem c4_no_validation_counterexample :
    (predict_brownian samplePf sampleRegistry
        ⟨some sampleCandles, none, some ⟨some (-5), none, none⟩⟩).calls.map
        EngineCall.windowSize = [-5] ∧
    (predict_brownian samplePf sampleRegistry
        ⟨some sampleCandles, none, some ⟨some (-5), none, none⟩⟩).registry.heston.window_size
      = -5 ∧
    (generate_brownian_signals sampleSf sampleRegistry
        ⟨some sampleCandles, none, none, some ⟨some (-5), none, none⟩⟩).calls.map
        EngineCall.windowSize = [-5] := by
  decide

/-- C4 (amended): per-call overrides of window_size, prediction_steps and
num_simulations are merged into the selected predictor's config with no
validation at all, on both /brownian endpoints and for every selected model
kind: every integer override value, positive or not, is written into the
shared config and handed to the engine. -/
theorem c4_amended_unvalidated_override
    (pf : BrownianMotionConfig → List ℚ → PredictOutcome)
    (sf : BrownianMotionConfig → List ℚ → ℚ → List Signal)
    (reg : Registry) (kind : String) (cfg : BrownianMotionConfig)
    (cs : List Candle) (o : ConfigOverride) (t : Option ℚ)
    (h : cs ≠ []) (hk : reg.lookup kind = some cfg) :
    (predict_brownian pf reg ⟨some cs, some kind, some o⟩).calls
        = [EngineCall.predictCall (applyOverride cfg o) (cs.map Candle.close)] ∧
    (generate_brownian_signals sf reg ⟨some cs, some kind, t, some o⟩).calls
        = [EngineCall.signalsCall (applyOverride cfg o) (cs.map Candle.close)
            (t.getD (1 / 50))] := by
  have hlen : ¬ cs.length = 0 := by simpa using h
  constructor
  · cases hpf : pf (applyOverride cfg o) (cs.map Candle.close) <;>
      simp [predict_brownian, hlen, hk, hpf]
  · simp [generate_brownian_signals, hlen, hk]

/-- Witness for the amended C4 at the override window_size = -5 on the heston
predictor, exercising both endpoints. -/
theorem c4_amended_unvalidated_override_witness :
    sampleCandles ≠ [] ∧
    sampleRegistry.lookup "heston" = some sampleRegistry.heston ∧
    ((predict_brownian samplePf sampleRegistry
        ⟨some sampleCandles, some "heston", some ⟨some (-5), none, none⟩⟩).calls
        = [EngineCall.predictCall
            (applyOverride sampleRegistry.heston ⟨some (-5), none, none⟩)
            (sampleCandles.map Candle.close)] ∧
     (generate_brownian_signals sampleSf sampleRegistry
        ⟨some sampleCandles, some "heston", none, some ⟨some (-5), none, none⟩⟩).calls
        = [EngineCall.signalsCall
            (applyOverride sampleRegistry.heston ⟨some (-5), none, none⟩)
            (sampleCandles.map Candle.close) ((none : Option ℚ).getD (1 / 50))]) :=
  ⟨by decide, by decide,
   c4_amended_unvalidated_override samplePf sampleSf sampleRegistry "heston"
     sampleRegistry.heston sampleCandles ⟨some (-5), none, none⟩ none
     (by decide) (by decide)⟩

/-- C9: a /brownian/predict or /brownian/signals request that omits model_type
is dispatched to the heston model: the engine is invoked exactly once with the
heston predictor's config, not rejected as an unknown or missing kind. -/
theorem c9_default_model_heston
    (pf : BrownianMotionConfig → List ℚ → PredictOutcome)
    (sf : BrownianMotionConfig → List ℚ → ℚ → List Signal)
    (reg : Registry) (cs : List Candle) (h : cs ≠ []) :
    (predict_brownian pf reg ⟨some cs, none, none⟩).calls
        = [EngineCall.predictCall reg.heston (cs.map Candle.close)] ∧
    (generate_brownian_signals sf reg ⟨some cs, none, none, none⟩).calls
        = [EngineCall.signalsCall reg.heston (cs.map Candle.close) (1 / 50)] := by
  have hlen : ¬ cs.length = 0 := by simpa using h
  constructor
  · cases hpf : pf reg.heston (cs.map Candle.close) <;>
      simp [predict_brownian, Registry.lookup, hlen, hpf]
  · simp [generate_brownian_signals, Registry.lookup, hlen]

/-- Witness for C9 at the sample fixtures. -/
theorem c9_default_model_heston_witness :
    sampleCandles ≠ [] ∧
    ((predict_brownian samplePf sampleRegistry ⟨some sampleCandles, none, none⟩).calls
        = [EngineCall.predictCall sampleRegistry.heston (sampleCandles.map Candle.close)] ∧
     (generate_brownian_signals sampleSf sampleRegistry
        ⟨some sampleCandles, none, none, none⟩).calls
        = [EngineCall.signalsCall sampleRegistry.heston (sampleCandles.map Candle.close)
            (1 / 50)]) :=
  ⟨by decide,
   c9_default_model_heston samplePf sampleSf sampleRegistry sampleCandles (by decide)⟩

/-- Helper: the /brownian/signals handler answers with either an explicit
error body or a signal-sequence body, and any signal-sequence body is exactly
the engine's output for the single engine call the handler performed. -/
theorem signals_complete_or_error
    (sf : BrownianMotionConfig → List ℚ → ℚ → List Signal) (reg : Registry)
    (sreq : SignalsBrownianRequest) :
    ((∃ m c, (generate_brownian_signals sf reg sreq).response = .error m c) ∨
      (∃ sigs mt t, (generate_brownian_signals sf reg sreq).response
        = .signalsOk sigs mt t)) ∧
    (∀ sigs mt t, (generate_brownian_signals sf reg sreq).response
        = .signalsOk sigs mt t →
      ∃ cfg ps, (generate_brownian_signals sf reg sreq).calls
        = [.signalsCall cfg ps t] ∧ sf cfg ps t = sigs) := by
  rcases sreq with ⟨candles, mt0, t0, cfgo⟩
  cases candles with
  | none =>
    exact ⟨.inl ⟨"No candles provided", 400, rfl⟩,
      fun sigs mt t h => by simp [generate_brownian_signals] at h⟩
  | some cs =>
    by_cases hlen : cs.length = 0
    · exact ⟨.inl ⟨"No candles provided", 400,
        by simp [generate_brownian_signals, hlen]⟩,
        fun sigs mt t h => by simp [generate_brownian_signals, hlen] at h⟩
    · cases hlook : reg.lookup (Option.getD mt0 "heston") with
      | none =>
        exact ⟨.inl ⟨"Unsupported model type: " ++ Option.getD mt0 "heston", 400,
          by simp [generate_brownian_signals, hlen, hlook]⟩,
          fun sigs mt t h => by simp [generate_brownian_signals, hlen, hlook] at h⟩
      | some cfg =>
        cases cfgo with
        | none =>
          refine ⟨.inr ⟨sf cfg (cs.map Candle.close) (Option.getD t0 (1 / 50)),
            Option.getD mt0 "heston", Option.getD t0 (1 / 50),
            by simp [generate_brownian_signals, hlen, hlook]⟩, ?_⟩
          intro sigs mt t h
          rw [show (generate_brownian_signals sf reg ⟨some cs, mt0, t0, none⟩).response
              = Response.signalsOk (sf cfg (cs.map Candle.close) (Option.getD t0 (1 / 50)))
                  (Option.getD mt0 "heston") (Option.getD t0 (1 / 50)) from by
                simp [generate_brownian_signals, hlen, hlook]] at h
          injection h with hs hmt ht
          subst ht
          exact ⟨cfg, cs.map Candle.close,
            by simp [generate_brownian_signals, hlen, hlook], hs⟩
        | some o =>
          refine ⟨.inr ⟨sf (applyOverride cfg o) (cs.map Candle.close)
              (Option.getD t0 (1 / 50)),
            Option.getD mt0 "heston", Option.getD t0 (1 / 50),
            by simp [generate_brownian_signals, hlen, hlook]⟩, ?_⟩
          intro sigs mt t h
          rw [show (generate_brownian_signals sf reg ⟨some cs, mt0, t0, some o⟩).response
              = Response.signalsOk
                  (sf (applyOverride cfg o) (cs.map Candle.close) (Option.getD t0 (1 / 50)))
                  (Option.getD mt0 "heston") (Option.getD t0 (1 / 50)) from by
                simp [generate_brownian_signals, hlen, hlook]] at h
          injection h with hs hmt ht
          subst ht
          exact ⟨applyOverride cfg o, cs.map Candle.close,
            by simp [generate_brownian_signals, hlen, hlook], hs⟩

/-- C7: every /brownian/predict invocation answers with either an explicit
error body or a complete forecast body, and a forecast body is returned
exactly when the engine's predict produced that complete forecast for the
call's config and prices — in particular, when the engine outcome carries an
error the caller receives an error response and never a forecast body; and
every /brownian/signals invocation answers with either an explicit error body
or a complete signal-sequence body that is exactly the sequence the engine
returned for the call's config, prices and threshold, never a partial one. -/
theorem c7_no_partial_forecast
    (pf : BrownianMotionConfig → List ℚ → PredictOutcome)
    (sf : BrownianMotionConfig → List ℚ → ℚ → List Signal) (reg : Registry)
    (req : PredictBrownianRequest) (sreq : SignalsBrownianRequest) :
    (((∃ m c, (predict_brownian pf reg req).response = .error m c) ∨
       (∃ f mt, (predict_brownian pf reg req).response = .predictOk f mt)) ∧
     (∀ f mt, (predict_brownian pf reg req).response = .predictOk f mt →
       ∃ cfg ps, (predict_brownian pf reg req).calls = [.predictCall cfg ps] ∧
         pf cfg ps = .ok f)) ∧
    (((∃ m c, (generate_brownian_signals sf reg sreq).response = .error m c) ∨
       (∃ sigs mt t, (generate_brownian_signals sf reg sreq).response
          = .signalsOk sigs mt t)) ∧
     (∀ sigs mt t, (generate_brownian_signals sf reg sreq).response
          = .signalsOk sigs mt t →
       ∃ cfg ps, (generate_brownian_signals sf reg sreq).calls
          = [.signalsCall cfg ps t] ∧ sf cfg ps t = sigs)) := by
  constructor
  case right => exact signals_complete_or_error sf reg sreq
  rcases req with ⟨candles, mt0, cfgo⟩
  cases candles with
  | none =>
    exact ⟨.inl ⟨"No candles provided", 400, rfl⟩,
      fun f mt h => by simp [predict_brownian] at h⟩
  | some cs =>
    by_cases hlen : cs.length = 0
    · exact ⟨.inl ⟨"No candles provided", 400, by simp [predict_brownian, hlen]⟩,
        fun f mt h => by simp [predict_brownian, hlen] at h⟩
    · cases hlook : reg.lookup (Option.getD mt0 "heston") with
      | none =>
        exact ⟨.inl ⟨"Unsupported model type: " ++ Option.getD mt0 "heston", 400,
          by simp [predict_brownian, hlen, hlook]⟩,
          fun f mt h => by simp [predict_brownian, hlen, hlook] at h⟩
      | some cfg =>
        cases cfgo with
        | none =>
          cases hpf : pf cfg (cs.map Candle.close) with
          | err m =>
            exact ⟨.inl ⟨m, 400, by simp [predict_brownian, hlen, hlook, hpf]⟩,
              fun f mt h => by
                rw [show (predict_brownian pf reg ⟨some cs, mt0, none⟩).response
                    = Response.error m 400 from by
                      simp [predict_brownian, hlen, hlook, hpf]] at h
                exact absurd h (by simp)⟩
          | ok f0 =>
            refine ⟨.inr ⟨f0, Option.getD mt0 "heston",
              by simp [predict_brownian, hlen, hlook, hpf]⟩, ?_⟩
            intro f mt h
            rw [show (predict_brownian pf reg ⟨some cs, mt0, none⟩).response
                = Response.predictOk f0 (Option.getD mt0 "heston") from by
                  simp [predict_brownian, hlen, hlook, hpf]] at h
            injection h with hf hmt
            refine ⟨cfg, cs.map Candle.close,
              by simp [predict_brownian, hlen, hlook, hpf], ?_⟩
            rw [hpf, hf]
        | some o =>
          cases hpf : pf (applyOverride cfg o) (cs.map Candle.close) with
          | err m =>
            exact ⟨.inl ⟨m, 400, by simp [predict_brownian, hlen, hlook, hpf]⟩,
              fun f mt h => by
                rw [show (predict_brownian pf reg ⟨some cs, mt0, some o⟩).response
                    = Response.error m 400 from by
                      simp [predict_brownian, hlen, hlook, hpf]] at h
                exact absurd h (by simp)⟩
          | ok f0 =>
            refine ⟨.inr ⟨f0, Option.getD mt0 "heston",
              by simp [predict_brownian, hlen, hlook, hpf]⟩, ?_⟩
            intro f mt h
            rw [show (predict_brownian pf reg ⟨some cs, mt0, some o⟩).response
                = Response.predictOk f0 (Option.getD mt0 "heston") from by
                  simp [predict_brownian, hlen, hlook, hpf]] at h
            injection h with hf hmt
            refine ⟨applyOverride cfg o, cs.map Candle.close,
              by simp [predict_brownian, hlen, hlook, hpf], ?_⟩
            rw [hpf, hf]

/-- Witness for C7: successful concrete runs of both endpoints, where the
response bodies are exactly the engine's complete forecast and complete
signal sequence. -/
theorem c7_no_partial_forecast_witness :
    (∃ cfg ps,
      (predict_brownian samplePfOk sampleRegistry
          ⟨some sampleCandles, none, none⟩).calls = [.predictCall cfg ps] ∧
      samplePfOk cfg ps = .ok sampleForecast) ∧
    (∃ cfg ps,
      (generate_brownian_signals sampleSf sampleRegistry
          ⟨some sampleCandles, none, none, none⟩).calls
        = [.signalsCall cfg ps (1 / 50)] ∧
      sampleSf cfg ps (1 / 50) = []) :=
  ⟨(c7_no_partial_forecast samplePfOk sampleSf sampleRegistry
      ⟨some sampleCandles, none, none⟩ ⟨some sampleCandles, none, none, none⟩).1.2
      sampleForecast "heston" (by decide),
   (c7_no_partial_forecast samplePfOk sampleSf sampleRegistry
      ⟨some sampleCandles, none, none⟩ ⟨some sampleCandles, none, none, none⟩).2.2
      [] "heston" (1 / 50) (by rfl)⟩

end Backtest
